import Mathlib

/-!
Verification of the e-commerce clothing backend (`main.py`, `schemas.py`):
user signup/login, product catalog, per-user shopping cart and mock checkout,
all persisted in a document store.  Collections are modelled as
insertion-ordered lists of documents; `find_one` is first-match lookup,
`update_one` updates the first matching document, `insert_one` appends.
Store-generated identifiers are modelled as naturals handed out by a counter
(`nextId`); MongoDB ObjectId strings sent by clients are parsed as 24-digit
hexadecimal numerals.  Prices, which are Python floats in the source, are
modelled as exact rationals; `round(x, 2)` is Python's round-half-to-even.
-/

namespace ECom

/-- Cart line item (schema `CartItem` / request `AddToCartRequest`):
product reference by opaque string id, quantity, optional size and color. -/
structure CartItem where
  product_id : String
  quantity : Int
  size : Option String
  color : Option String
deriving Repr, DecidableEq

/-- Document of the `user` collection (schema `User` plus its store id). -/
structure UserDoc where
  id : Nat
  name : String
  email : String
  password_hash : String
  address : Option String
  is_active : Bool
deriving Repr, DecidableEq

/-- Product image (schema `ProductImage`). -/
structure ProductImage where
  url : String
  alt : Option String
deriving Repr, DecidableEq

/-- Product variant (schema `ProductVariant`). -/
structure ProductVariant where
  size : Option String
  color : Option String
  stock : Int
deriving Repr, DecidableEq

/-- Document of the `product` collection (schema `Product` plus its store id). -/
structure ProductDoc where
  id : Nat
  title : String
  description : Option String
  price : ℚ
  category : String
  images : List ProductImage
  variants : List ProductVariant
  in_stock : Bool
deriving Repr, DecidableEq

/-- Document of the `cart` collection (schema `Cart` plus its store id).
A freshly created cart document has no `updated_at` field; the field is
set by `update_one` in `add_to_cart` and `checkout`. -/
structure CartDoc where
  id : Nat
  user_id : String
  items : List CartItem
  updated_at : Option Nat
deriving Repr, DecidableEq

/-- Order line item (schema `OrderItem`): a snapshot taken at checkout. -/
structure OrderItem where
  product_id : String
  title : String
  unit_price : ℚ
  quantity : Int
  size : Option String
  color : Option String
deriving Repr, DecidableEq

/-- Document of the `order` collection (schema `Order` plus its store id
and the timestamps `checkout` writes). -/
structure OrderDoc where
  id : Nat
  user_id : String
  items : List OrderItem
  total : ℚ
  status : String
  shipping_address : Option String
  created_at : Nat
  updated_at : Nat
deriving Repr, DecidableEq

/-- State of the document store: the four collections used by the API, as
insertion-ordered lists, plus the counter from which fresh document ids are
assigned. -/
structure Store where
  users : List UserDoc
  products : List ProductDoc
  carts : List CartDoc
  orders : List OrderDoc
  nextId : Nat
deriving Repr, DecidableEq

/-- HTTP error raised via `HTTPException(status_code, detail)`. -/
structure HError where
  status : Nat
  detail : String
deriving Repr, DecidableEq

/-- Error raised by both `signup` duplicate-email checks. -/
def duplicateEmailErr : HError := ⟨400, "Email already registered"⟩

/-- Error raised by both failure branches of `login`. -/
def invalidCredentialsErr : HError := ⟨401, "Invalid credentials"⟩

/-- Error raised by `checkout` when the cart is missing or has no items. -/
def emptyCartErr : HError := ⟨400, "Cart is empty"⟩

/-- Value of a hexadecimal digit character (both cases accepted). -/
def hexVal (c : Char) : Nat :=
  if c.toNat ≥ 97 then c.toNat - 87
  else if c.toNat ≥ 65 then c.toNat - 55
  else c.toNat - 48

/-- Whether a character is a hexadecimal digit. -/
def isHexChar (c : Char) : Bool :=
  c.isDigit || decide (97 ≤ c.toNat ∧ c.toNat ≤ 102) || decide (65 ≤ c.toNat ∧ c.toNat ≤ 70)

/-- Translation of `bson.ObjectId.is_valid` on strings: a valid ObjectId
string is exactly 24 hexadecimal digits. -/
def isValidObjectId (s : String) : Bool :=
  s.length == 24 && s.data.all isHexChar

/-- Numeric value of a hexadecimal ObjectId string, i.e. the 12-byte
ObjectId it denotes (so upper- and lower-case spellings coincide). -/
def hexToNat (s : String) : Nat :=
  s.data.foldl (fun acc c => acc * 16 + hexVal c) 0

/-- Python's `round(x, 2)`: round to 2 decimal places, ties to even
(Python's built-in `round` uses banker's rounding). -/
def pyRound2 (x : ℚ) : ℚ :=
  let y : ℚ := x * 100
  let n : Int := y.floor
  let r : ℚ := y - n
  let m : Int :=
    if r > 1 / 2 then n + 1
    else if r < 1 / 2 then n
    else if n % 2 = 0 then n else n + 1
  (m : ℚ) / 100

/-- Semantics of MongoDB's `update_one`: apply `f` to the first element
satisfying `p`, leave everything else in place. -/
def updateFirst (p : α → Bool) (f : α → α) : List α → List α
  | [] => []
  | x :: xs => if p x then f x :: xs else x :: updateFirst p f xs

/-- Translation of `db["user"].find_one({"email": email})`. -/
def findUserByEmail (s : Store) (email : String) : Option UserDoc :=
  s.users.find? (fun u => u.email == email)

/-- Translation of `db["cart"].find_one({"user_id": user_id})`. -/
def findCart (s : Store) (uid : String) : Option CartDoc :=
  s.carts.find? (fun c => c.user_id == uid)

/-- Translation of checkout's product resolution:
`db["product"].find_one({"_id": ObjectId(pid)}) if ObjectId.is_valid(pid) else None`. -/
def findProduct (s : Store) (pid : String) : Option ProductDoc :=
  if isValidObjectId pid then s.products.find? (fun p => p.id == hexToNat pid)
  else none

/-- Translation of `create_token(user_id)`: the string
`f"tok_{user_id}_{int(now)}"`. -/
def createToken (uid : Nat) (now : Nat) : String :=
  "tok_" ++ toString uid ++ "_" ++ toString now

/-- Response of the auth endpoints (`AuthResponse`). -/
structure AuthResponse where
  user_id : Nat
  name : String
  email : String
  token : String
deriving Repr, DecidableEq

/-- Response of `GET /cart/{user_id}` and `POST /cart/{user_id}/add`. -/
structure CartResp where
  cart_id : Nat
  items : List CartItem
deriving Repr, DecidableEq

/-- Response of `POST /checkout`. -/
structure CheckoutResp where
  order_id : Nat
  total : ℚ
  status : String
deriving Repr, DecidableEq

/-- Modelled from the spec: `create_document` lives in `database.py`, which
is not part of the sources; per spec §4.1 `insert(collection, doc) -> id`
assigns a store-generated unique identifier, returns it, and durably writes
the document.  We model the id as the store's counter value and the write as
appending to the collection list.  This helper inserts a user document. -/
def insertUserDoc (s : Store) (name email passwordHash : String) : Nat × Store :=
  (s.nextId,
    { s with
      users := s.users ++
        [{ id := s.nextId, name := name, email := email,
           password_hash := passwordHash, address := none, is_active := true }]
      nextId := s.nextId + 1 })

/-- Modelled from the spec: `create_document` for the `cart` collection
(see `insertUserDoc` for the missing-`database.py` convention). -/
def insertCartDoc (s : Store) (uid : String) (items : List CartItem) : Nat × Store :=
  (s.nextId,
    { s with
      carts := s.carts ++
        [{ id := s.nextId, user_id := uid, items := items, updated_at := none }]
      nextId := s.nextId + 1 })

/-- Fields of `CreateProductRequest` (= the `Product` schema). -/
structure ProductInput where
  title : String
  description : Option String
  price : ℚ
  category : String
  images : List ProductImage
  variants : List ProductVariant
  in_stock : Bool
deriving Repr, DecidableEq

/-- Translation of `POST /auth/signup`: reject if a user with the email
exists, otherwise store the user with a hashed credential and return
id, name, email and a fresh token.  `hashPassword` abstracts the external
bcrypt `hash_password`; `now` the wall clock read by `create_token`. -/
def signup (hashPassword : String → String) (now : Nat)
    (name email password : String) (s : Store) :
    Except HError AuthResponse × Store :=
  match findUserByEmail s email with
  | some _ => (.error duplicateEmailErr, s)
  | none =>
    let (uid, s') := insertUserDoc s name email (hashPassword password)
    (.ok { user_id := uid, name := name, email := email,
           token := createToken uid now }, s')

/-- Translation of `POST /auth/login`: 401 with "Invalid credentials" when
no user carries the email, 401 with the same message when the password does
not verify against the stored hash, otherwise a fresh token.
`verifyPassword` abstracts the external bcrypt `verify_password`. -/
def login (verifyPassword : String → String → Bool) (now : Nat)
    (email password : String) (s : Store) :
    Except HError AuthResponse × Store :=
  match findUserByEmail s email with
  | none => (.error invalidCredentialsErr, s)
  | some u =>
    if verifyPassword password u.password_hash then
      (.ok { user_id := u.id, name := u.name, email := u.email,
             token := createToken u.id now }, s)
    else (.error invalidCredentialsErr, s)

/-- Translation of `POST /products`: persist the payload, return its id. -/
def createProduct (p : ProductInput) (s : Store) : Nat × Store :=
  (s.nextId,
    { s with
      products := s.products ++
        [{ id := s.nextId, title := p.title, description := p.description,
           price := p.price, category := p.category, images := p.images,
           variants := p.variants, in_stock := p.in_stock }]
      nextId := s.nextId + 1 })

/-- Translation of `GET /cart/{user_id}` (`get_cart`): look the cart up by
user id; if absent, create and persist an empty one; either way return the
cart id and items. -/
def getCart (uid : String) (s : Store) : CartResp × Store :=
  match findCart s uid with
  | none =>
    let (cid, s') := insertCartDoc s uid []
    ({ cart_id := cid, items := [] }, s')
  | some c => ({ cart_id := c.id, items := c.items }, s)

/-- Translation of `POST /cart/{user_id}/add` (`add_to_cart`): if no cart
exists, create one holding just the new item; otherwise append the item to
the existing item list and `update_one` the cart document (matched by its
`_id`) with the new list and a fresh `updated_at`. -/
def addToCart (now : Nat) (uid : String) (item : CartItem) (s : Store) :
    CartResp × Store :=
  match findCart s uid with
  | none =>
    let (cid, s') := insertCartDoc s uid [item]
    ({ cart_id := cid, items := [item] }, s')
  | some c =>
    let items := c.items ++ [item]
    ({ cart_id := c.id, items := items },
      { s with
        carts := updateFirst (fun d => d.id == c.id)
          (fun d => { d with items := items, updated_at := some now }) s.carts })

/-- Translation of the body of checkout's per-item loop: resolve the
product (defaults `"Item"` / `0.0` when unresolved), snapshot the item. -/
def snapItem (s : Store) (it : CartItem) : OrderItem :=
  let prod := findProduct s it.product_id
  { product_id := it.product_id
    title := match prod with | some p => p.title | none => "Item"
    unit_price := match prod with | some p => p.price | none => 0
    quantity := it.quantity
    size := it.size
    color := it.color }

/-- Contribution of one cart item to checkout's running total. -/
def lineTotal (s : Store) (it : CartItem) : ℚ :=
  (snapItem s it).unit_price * it.quantity

/-- Translation of `POST /checkout`: load the cart (400 "Cart is empty" if
absent or empty), build order-item snapshots and accumulate the total in one
pass over the cart items, insert the order document with status "paid" and
the total rounded to 2 decimals, then clear the first cart matching the
user id (`update_one({"user_id": ...})` setting `items` to `[]` and a fresh
`updated_at`). -/
def checkout (now : Nat) (uid : String) (addr : Option String) (s : Store) :
    Except HError CheckoutResp × Store :=
  match findCart s uid with
  | none => (.error emptyCartErr, s)
  | some c =>
    if c.items.isEmpty then (.error emptyCartErr, s)
    else
      let acc := c.items.foldl
        (fun (acc : List OrderItem × ℚ) it =>
          (acc.1 ++ [snapItem s it], acc.2 + lineTotal s it)) ([], 0)
      let oid := s.nextId
      let od : OrderDoc :=
        { id := oid, user_id := uid, items := acc.1, total := pyRound2 acc.2,
          status := "paid", shipping_address := addr,
          created_at := now, updated_at := now }
      let s1 := { s with orders := s.orders ++ [od], nextId := s.nextId + 1 }
      let s2 := { s1 with
        carts := updateFirst (fun d => d.user_id == uid)
          (fun d => { d with items := [], updated_at := some now }) s1.carts }
      (.ok { order_id := oid, total := od.total, status := "paid" }, s2)

/-- One API call that may touch the store, with the arguments it takes
(read-only endpoints are omitted: they leave the store as is). -/
inductive Op where
  | signup (name email password : String)
  | login (email password : String)
  | createProduct (p : ProductInput)
  | getCart (uid : String)
  | addToCart (uid : String) (item : CartItem)
  | checkout (uid : String) (addr : Option String)

/-- Store after handling one API call at time `now` (response discarded). -/
def applyOp (hashPassword : String → String)
    (verifyPassword : String → String → Bool) (now : Nat) (op : Op)
    (s : Store) : Store :=
  match op with
  | .signup name email password => (signup hashPassword now name email password s).2
  | .login email password => (login verifyPassword now email password s).2
  | .createProduct p => (ECom.createProduct p s).2
  | .getCart uid => (ECom.getCart uid s).2
  | .addToCart uid item => (ECom.addToCart now uid item s).2
  | .checkout uid addr => (ECom.checkout now uid addr s).2

/-- Store after handling a sequence of timestamped API calls. -/
def runOps (hashPassword : String → String)
    (verifyPassword : String → String → Bool) (ops : List (Nat × Op))
    (s : Store) : Store :=
  ops.foldl (fun t op => applyOp hashPassword verifyPassword op.1 op.2 t) s

/-- Store after a sequence of timestamped `addToCart` calls for one user. -/
def addItems (uid : String) (l : List (Nat × CartItem)) (s : Store) : Store :=
  l.foldl (fun t it => (addToCart it.1 uid it.2 t).2) s

/-- Well-formedness the backing store guarantees for the cart collection:
document ids are pairwise distinct and below the id counter. -/
def Store.WFCarts (s : Store) : Prop :=
  (s.carts.map (fun c => c.id)).Nodup ∧ ∀ c ∈ s.carts, c.id < s.nextId

/-- Order document persisted by a successful `checkout` run on cart `c`. -/
def checkoutOrder (now : Nat) (uid : String) (addr : Option String)
    (s : Store) (c : CartDoc) : OrderDoc :=
  { id := s.nextId, user_id := uid, items := c.items.map (snapItem s),
    total := pyRound2 ((c.items.map (lineTotal s)).sum), status := "paid",
    shipping_address := addr, created_at := now, updated_at := now }

/-- Cart collection after checkout's final `update_one`: the first cart of
the user gets an empty item list and a fresh `updated_at`. -/
def clearCart (now : Nat) (uid : String) (l : List CartDoc) : List CartDoc :=
  updateFirst (fun d => d.user_id == uid)
    (fun d => { d with items := [], updated_at := some now }) l

/-- Store after `n` further sequential `GET /cart/{uid}` calls. -/
def getCartIter (uid : String) : Nat → Store → Store
  | 0, s => s
  | n + 1, s => getCartIter uid n (getCart uid s).2

/-! ### Concrete fixtures used to exercise the theorems -/

/-- Valid ObjectId string (24 hex digits) denoting id 0. -/
def pid0 : String := "000000000000000000000000"

/-- Product document: a 10-dollar tee with store id 0. -/
def teeProd : ProductDoc :=
  { id := 0, title := "Tee", description := none, price := 10,
    category := "shirts", images := [], variants := [], in_stock := true }

/-- Cart holding one line of two tees. -/
def cartA : CartDoc :=
  { id := 1, user_id := "u1",
    items := [{ product_id := pid0, quantity := 2, size := none, color := none }],
    updated_at := none }

/-- Store with the tee product and user u1's two-tee cart. -/
def cartStoreA : Store :=
  { users := [], products := [teeProd], carts := [cartA], orders := [],
    nextId := 2 }

/-- Cart whose single line references a malformed product id. -/
def cartB : CartDoc :=
  { id := 0, user_id := "u2",
    items := [{ product_id := "not-a-valid-id", quantity := 1, size := none,
                color := none }],
    updated_at := none }

/-- Store with user u2's cart referencing a malformed product id. -/
def cartStoreB : Store :=
  { users := [], products := [], carts := [cartB], orders := [], nextId := 1 }

/-- Store with no documents at all. -/
def emptyStore : Store :=
  { users := [], products := [], carts := [], orders := [], nextId := 0 }

/-- User document for the login fixtures. -/
def aliceUser : UserDoc :=
  { id := 0, name := "Alice", email := "alice@x.com",
    password_hash := "stored-hash", address := none, is_active := true }

/-- Store holding just the user Alice. -/
def userStore : Store :=
  { users := [aliceUser], products := [], carts := [], orders := [],
    nextId := 1 }

/-- Stand-in deterministic hash function for the signup fixtures. -/
def hashF : String → String := fun p => p ++ "#hashed"

/-- Response of a successful checkout on `cartStoreA`. -/
def respA : CheckoutResp :=
  { order_id := 2,
    total := pyRound2 ((cartA.items.map (lineTotal cartStoreA)).sum),
    status := "paid" }

/-- Store left behind by a successful checkout on `cartStoreA` at time 5. -/
def afterA : Store :=
  { users := cartStoreA.users, products := cartStoreA.products,
    carts := clearCart 5 "u1" cartStoreA.carts,
    orders := cartStoreA.orders ++ [checkoutOrder 5 "u1" none cartStoreA cartA],
    nextId := cartStoreA.nextId + 1 }

/-! ### Lemmas about the store primitives -/

theorem updateFirst_length (p : α → Bool) (f : α → α) (l : List α) :
    (updateFirst p f l).length = l.length := by
  induction l with
  | nil => rfl
  | cons x xs ih =>
    simp only [updateFirst]
    split <;> simp [ih]

theorem updateFirst_getElem (p : α → Bool) (f : α → α) (l : List α) (i : Nat)
    (h : i < l.length) (h' : i < (updateFirst p f l).length) :
    (updateFirst p f l)[i] = l[i] ∨
      ((updateFirst p f l)[i] = f l[i] ∧ p l[i] = true) := by
  induction l generalizing i with
  | nil => simp at h
  | cons x xs ih =>
    by_cases hp : p x
    · rcases i with _ | i
      · right
        simp [updateFirst, hp]
      · left
        simp [updateFirst, hp]
    · rcases i with _ | i
      · left
        simp [updateFirst, hp]
      · have hi : i < xs.length := by simpa using h
        have hi' : i < (updateFirst p f xs).length := by
          simpa [updateFirst_length] using hi
        have := ih i hi hi'
        simpa [updateFirst, hp] using this

theorem find?_updateFirst (p : α → Bool) (f : α → α)
    (hpf : ∀ a, p a = true → p (f a) = true) (l : List α) (c : α)
    (h : l.find? p = some c) :
    (updateFirst p f l).find? p = some (f c) := by
  induction l with
  | nil => simp at h
  | cons x xs ih =>
    rw [List.find?_cons] at h
    by_cases hp : p x
    · simp only [hp] at h
      cases h
      have hfc := hpf c hp
      simp [updateFirst, hp, List.find?_cons, hfc]
    · simp only [Bool.not_eq_true] at hp
      simp only [hp] at h
      have := ih h
      simp [updateFirst, hp, List.find?_cons, this]

theorem find?_updateFirst_by_id (uid : String) (f : CartDoc → CartDoc)
    (hfu : ∀ d, (f d).user_id = d.user_id) (l : List CartDoc) (c : CartDoc)
    (hnd : (l.map (fun d => d.id)).Nodup)
    (h : l.find? (fun d => d.user_id == uid) = some c) :
    (updateFirst (fun d => d.id == c.id) f l).find?
        (fun d => d.user_id == uid) = some (f c) := by
  induction l with
  | nil => simp at h
  | cons x xs ih =>
    rw [List.find?_cons] at h
    by_cases hx : x.user_id == uid
    · simp only [hx] at h
      cases h
      have hbc : (c.id == c.id) = true := by simp
      have hfu' : ((f c).user_id == uid) = true := by
        rw [hfu c]
        exact hx
      simp [updateFirst, hbc, List.find?_cons, hfu']
    · simp only [Bool.not_eq_true] at hx
      simp only [hx] at h
      have hmem : c ∈ xs := List.mem_of_find?_eq_some h
      have hnd' : x.id ∉ xs.map (fun d => d.id) ∧
          (xs.map (fun d => d.id)).Nodup := by
        rw [List.map_cons] at hnd
        exact List.nodup_cons.mp hnd
      have hne : x.id ≠ c.id := by
        intro hEq
        refine hnd'.1 ?_
        rw [hEq]
        exact List.mem_map_of_mem (fun d => d.id) hmem
      have hb : (x.id == c.id) = false := by simpa using hne
      have htail := ih hnd'.2 h
      simp [updateFirst, hb, List.find?_cons, hx, htail]

theorem find?_append_none (p : α → Bool) (l : List α) (x : α)
    (h : l.find? p = none) (hx : p x = true) :
    (l ++ [x]).find? p = some x := by
  simp [List.find?_append, h, List.find?_cons, hx]

theorem foldl_snap (s : Store) (l : List CartItem) (acc : List OrderItem) (t : ℚ) :
    l.foldl (fun (a : List OrderItem × ℚ) it =>
        (a.1 ++ [snapItem s it], a.2 + lineTotal s it)) (acc, t)
      = (acc ++ l.map (snapItem s), t + (l.map (lineTotal s)).sum) := by
  induction l generalizing acc t with
  | nil => simp
  | cons x xs ih => simp [List.foldl_cons, ih, add_assoc]

/-! ### Normal forms of the endpoints -/

theorem checkout_eq (now : Nat) (uid : String) (addr : Option String)
    (s : Store) (c : CartDoc) (h1 : findCart s uid = some c)
    (h2 : c.items ≠ []) :
    checkout now uid addr s =
      (.ok { order_id := s.nextId,
             total := pyRound2 ((c.items.map (lineTotal s)).sum),
             status := "paid" },
       { users := s.users, products := s.products,
         carts := clearCart now uid s.carts,
         orders := s.orders ++ [checkoutOrder now uid addr s c],
         nextId := s.nextId + 1 }) := by
  have he : c.items.isEmpty = false := List.isEmpty_eq_false.mpr h2
  simp [checkout, h1, he, foldl_snap, checkoutOrder, clearCart]

theorem checkout_ok_inv (now : Nat) (uid : String) (addr : Option String)
    (s : Store) (r : CheckoutResp) (s' : Store)
    (h : checkout now uid addr s = (.ok r, s')) :
    ∃ c, findCart s uid = some c ∧ c.items ≠ [] := by
  rcases hf : findCart s uid with _ | c
  · simp [checkout, hf] at h
  · refine ⟨c, rfl, ?_⟩
    intro hnil
    have he : c.items.isEmpty = true := by simp [hnil]
    simp [checkout, hf, he] at h

theorem getCart_none (uid : String) (s : Store) (h : findCart s uid = none) :
    getCart uid s = ({ cart_id := s.nextId, items := [] },
      { s with
        carts := s.carts ++
          [{ id := s.nextId, user_id := uid, items := [], updated_at := none }]
        nextId := s.nextId + 1 }) := by
  simp [getCart, h, insertCartDoc]

theorem getCart_some (uid : String) (s : Store) (c : CartDoc)
    (h : findCart s uid = some c) :
    getCart uid s = ({ cart_id := c.id, items := c.items }, s) := by
  simp [getCart, h]

theorem addToCart_none (now : Nat) (uid : String) (it : CartItem) (s : Store)
    (h : findCart s uid = none) :
    addToCart now uid it s = ({ cart_id := s.nextId, items := [it] },
      { s with
        carts := s.carts ++
          [{ id := s.nextId, user_id := uid, items := [it], updated_at := none }]
        nextId := s.nextId + 1 }) := by
  simp [addToCart, h, insertCartDoc]

theorem addToCart_some (now : Nat) (uid : String) (it : CartItem) (s : Store)
    (c : CartDoc) (h : findCart s uid = some c) :
    addToCart now uid it s = ({ cart_id := c.id, items := c.items ++ [it] },
      { s with
        carts := updateFirst (fun d => d.id == c.id)
          (fun d => { d with items := c.items ++ [it], updated_at := some now })
          s.carts }) := by
  simp [addToCart, h]

/-! ### Each endpoint's effect on the user collection -/

theorem login_state (v : String → String → Bool) (now : Nat)
    (email password : String) (s : Store) :
    (login v now email password s).2 = s := by
  rcases h : findUserByEmail s email with _ | u
  · simp [login, h]
  · by_cases hv : v password u.password_hash <;> simp [login, h, hv]

theorem signup_users_mem (hP : String → String) (now : Nat)
    (name email password : String) (s : Store) (u : UserDoc)
    (h : u ∈ s.users) : u ∈ (signup hP now name email password s).2.users := by
  rcases hf : findUserByEmail s email with _ | w
  · simp only [signup, hf, insertUserDoc]
    exact List.mem_append_left _ h
  · simpa [signup, hf] using h

theorem createProduct_users_eq (p : ProductInput) (s : Store) :
    (createProduct p s).2.users = s.users := rfl

theorem getCart_users_eq (uid : String) (s : Store) :
    (getCart uid s).2.users = s.users := by
  rcases hf : findCart s uid with _ | c <;> simp [getCart, hf, insertCartDoc]

theorem addToCart_users_eq (now : Nat) (uid : String) (it : CartItem)
    (s : Store) : (addToCart now uid it s).2.users = s.users := by
  rcases hf : findCart s uid with _ | c <;> simp [addToCart, hf, insertCartDoc]

theorem checkout_users_eq (now : Nat) (uid : String) (addr : Option String)
    (s : Store) : (checkout now uid addr s).2.users = s.users := by
  rcases hf : findCart s uid with _ | c
  · simp [checkout, hf]
  · by_cases he : c.items.isEmpty
    · simp [checkout, hf, he]
    · have h2 : c.items ≠ [] := List.isEmpty_eq_false.mp (by simpa using he)
      simp [checkout_eq now uid addr s c hf h2]

theorem checkout_products_eq (now : Nat) (uid : String) (addr : Option String)
    (s : Store) : (checkout now uid addr s).2.products = s.products := by
  rcases hf : findCart s uid with _ | c
  · simp [checkout, hf]
  · by_cases he : c.items.isEmpty
    · simp [checkout, hf, he]
    · have h2 : c.items ≠ [] := List.isEmpty_eq_false.mp (by simpa using he)
      simp [checkout_eq now uid addr s c hf h2]

theorem applyOp_users_mem (hP : String → String)
    (v : String → String → Bool) (now : Nat) (op : Op) (s : Store)
    (u : UserDoc) (h : u ∈ s.users) : u ∈ (applyOp hP v now op s).users := by
  cases op with
  | signup n e pw => exact signup_users_mem hP now n e pw s u h
  | login e pw => simpa [applyOp, login_state] using h
  | createProduct p => simpa [applyOp, createProduct_users_eq] using h
  | getCart uid => simpa [applyOp, getCart_users_eq] using h
  | addToCart uid it => simpa [applyOp, addToCart_users_eq] using h
  | checkout uid addr => simpa [applyOp, checkout_users_eq] using h

theorem runOps_users_mem (hP : String → String)
    (v : String → String → Bool) (ops : List (Nat × Op)) :
    ∀ (s : Store) (u : UserDoc), u ∈ s.users →
      u ∈ (runOps hP v ops s).users := by
  induction ops with
  | nil =>
    intro s u h
    simpa [runOps] using h
  | cons op rest ih =>
    intro s u h
    have h1 := applyOp_users_mem hP v op.1 op.2 s u h
    simpa [runOps, List.foldl_cons] using ih _ u h1

/-! ### Preservation of cart-collection well-formedness -/

theorem map_updateFirst (p : α → Bool) (f : α → α) (g : α → β)
    (hg : ∀ a, g (f a) = g a) (l : List α) :
    (updateFirst p f l).map g = l.map g := by
  induction l with
  | nil => rfl
  | cons x xs ih =>
    simp only [updateFirst]
    split <;> simp [ih, hg]

theorem mem_updateFirst (p : α → Bool) (f : α → α) (l : List α) (d : α)
    (hd : d ∈ updateFirst p f l) : d ∈ l ∨ ∃ e ∈ l, d = f e := by
  induction l with
  | nil => simp [updateFirst] at hd
  | cons x xs ih =>
    simp only [updateFirst] at hd
    split at hd
    · rcases List.mem_cons.mp hd with rfl | h
      · right
        exact ⟨x, List.mem_cons_self x xs, rfl⟩
      · left
        exact List.mem_cons_of_mem x h
    · rcases List.mem_cons.mp hd with rfl | h
      · left
        exact List.mem_cons_self _ _
      · rcases ih h with h1 | ⟨e, he, rfl⟩
        · left
          exact List.mem_cons_of_mem x h1
        · right
          exact ⟨e, List.mem_cons_of_mem x he, rfl⟩

theorem WFCarts_append_new (s : Store) (hwf : s.WFCarts) (c : CartDoc)
    (hid : c.id = s.nextId) :
    Store.WFCarts { s with carts := s.carts ++ [c], nextId := s.nextId + 1 } := by
  obtain ⟨hnd, hlt⟩ := hwf
  constructor
  · rw [List.map_append, List.nodup_append]
    refine ⟨hnd, by simp, ?_⟩
    intro a ha hb
    have hab : a = c.id := by simpa using hb
    obtain ⟨d, hd, rfl⟩ := List.mem_map.mp ha
    have hlt' := hlt d hd
    rw [hab, hid] at hlt'
    exact absurd hlt' (lt_irrefl _)
  · intro d hd
    rcases List.mem_append.mp hd with h1 | h1
    · exact Nat.lt_succ_of_lt (hlt d h1)
    · have : d = c := by simpa using h1
      rw [this, hid]
      exact Nat.lt_succ_self _

theorem WFCarts_updateFirst (s : Store) (hwf : s.WFCarts)
    (p : CartDoc → Bool) (f : CartDoc → CartDoc)
    (hid : ∀ d, (f d).id = d.id) :
    Store.WFCarts { s with carts := updateFirst p f s.carts } := by
  obtain ⟨hnd, hlt⟩ := hwf
  constructor
  · rw [map_updateFirst p f (fun d => d.id) hid]
    exact hnd
  · intro d hd
    rcases mem_updateFirst p f s.carts d hd with h1 | ⟨e, he, rfl⟩
    · exact hlt d h1
    · rw [hid e]
      exact hlt e he

/-! ### Invariant of a run of sequential addToCart calls -/

theorem addItems_inv (uid : String) (l : List (Nat × CartItem)) :
    ∀ (s : Store) (c : CartDoc), s.WFCarts → findCart s uid = some c →
      ∃ c', findCart (addItems uid l s) uid = some c' ∧
        c'.items = c.items ++ l.map (fun x => x.2) ∧
        (addItems uid l s).WFCarts := by
  induction l with
  | nil =>
    intro s c hwf hf
    exact ⟨c, by simpa [addItems] using hf, by simp,
      by simpa [addItems] using hwf⟩
  | cons x rest ih =>
    intro s c hwf hf
    have hstep := addToCart_some x.1 uid x.2 s c hf
    have hs1 := congrArg Prod.snd hstep
    have hfind1 : findCart ((addToCart x.1 uid x.2 s).2) uid =
        some { c with items := c.items ++ [x.2], updated_at := some x.1 } := by
      rw [hs1]
      exact find?_updateFirst_by_id uid
        (fun d => { d with items := c.items ++ [x.2], updated_at := some x.1 })
        (fun d => rfl) s.carts c hwf.1 hf
    have hwf1 : ((addToCart x.1 uid x.2 s).2).WFCarts := by
      rw [hs1]
      exact WFCarts_updateFirst s hwf _ _ (fun d => rfl)
    obtain ⟨c', h1, h2, h3⟩ := ih ((addToCart x.1 uid x.2 s).2) _ hwf1 hfind1
    refine ⟨c', ?_, ?_, ?_⟩
    · simpa [addItems, List.foldl_cons] using h1
    · rw [h2]
      simp
    · simpa [addItems, List.foldl_cons] using h3

/-! ### Checkout on the concrete fixture store -/

theorem checkoutA_eq : checkout 5 "u1" none cartStoreA = (.ok respA, afterA) :=
  checkout_eq 5 "u1" none cartStoreA cartA rfl (by simp [cartA])

theorem respA_total : respA.total = 20 := by
  have hp : findProduct cartStoreA pid0 = some teeProd := rfl
  have hsum : (cartA.items.map (lineTotal cartStoreA)).sum = 20 := by
    simp [cartA, lineTotal, snapItem, hp, teeProd]
    norm_num
  show pyRound2 ((cartA.items.map (lineTotal cartStoreA)).sum) = 20
  rw [hsum]
  norm_num [pyRound2, Rat.floor]

/-! ### The claims -/

/-- C1: for every user, checkout on an absent or empty cart fails with the
400 "Cart is empty" error, and the store is returned exactly as it was, so
no order document is created and no stored state is modified. -/
theorem claim1_checkout_empty_cart_fails (now : Nat) (uid : String)
    (addr : Option String) (s : Store)
    (h : findCart s uid = none ∨ ∃ c, findCart s uid = some c ∧ c.items = []) :
    checkout now uid addr s = (.error emptyCartErr, s) := by
  rcases h with h | ⟨c, hc, hnil⟩
  · simp [checkout, h]
  · have he : c.items.isEmpty = true := by simp [hnil]
    simp [checkout, hc, he]

/-- C1 witness: checkout for a user with no cart document at all. -/
theorem claim1_checkout_empty_cart_fails_witness :
    checkout 0 "u1" none emptyStore = (.error emptyCartErr, emptyStore) :=
  claim1_checkout_empty_cart_fails 0 "u1" none emptyStore (Or.inl rfl)

/-- C8: a login that fails because no user carries the email returns the
very same 401 "Invalid credentials" error as a login that fails because the
stored hash does not verify, for any verification function — the response
does not reveal which check failed. -/
theorem claim8_login_error_indistinguishable
    (verify : String → String → Bool) (now1 now2 : Nat)
    (e1 pw1 e2 pw2 : String) (s1 s2 : Store) (u : UserDoc)
    (h1 : findUserByEmail s1 e1 = none)
    (h2 : findUserByEmail s2 e2 = some u)
    (h3 : verify pw2 u.password_hash = false) :
    (login verify now1 e1 pw1 s1).1 = .error invalidCredentialsErr ∧
    (login verify now2 e2 pw2 s2).1 = .error invalidCredentialsErr ∧
    (login verify now1 e1 pw1 s1).1 = (login verify now2 e2 pw2 s2).1 := by
  have a1 : (login verify now1 e1 pw1 s1).1 = .error invalidCredentialsErr := by
    simp [login, h1]
  have a2 : (login verify now2 e2 pw2 s2).1 = .error invalidCredentialsErr := by
    simp [login, h2, h3]
  exact ⟨a1, a2, a1.trans a2.symm⟩

/-- C8 witness: an unknown email against an empty store versus Alice with a
rejecting verifier — both yield the identical 401 error. -/
theorem claim8_login_error_indistinguishable_witness :
    (login (fun _ _ => false) 1 "bob@x.com" "pw" emptyStore).1 =
      .error invalidCredentialsErr ∧
    (login (fun _ _ => false) 2 "alice@x.com" "pw" userStore).1 =
      .error invalidCredentialsErr ∧
    (login (fun _ _ => false) 1 "bob@x.com" "pw" emptyStore).1 =
      (login (fun _ _ => false) 2 "alice@x.com" "pw" userStore).1 :=
  claim8_login_error_indistinguishable (fun _ _ => false) 1 2
    "bob@x.com" "pw" "alice@x.com" "pw" emptyStore userStore aliceUser
    rfl rfl rfl

/-- C6: for a user with no cart, the first getCart call creates and
persists one empty cart and returns its id; every subsequent sequential
getCart call leaves the store untouched and returns the same cart id. -/
theorem claim6_getCart_idempotent_after_first (uid : String) (s : Store)
    (h : findCart s uid = none) :
    (getCart uid s).2.carts = s.carts ++
        [{ id := s.nextId, user_id := uid, items := [], updated_at := none }] ∧
    (getCart uid s).1 = { cart_id := s.nextId, items := [] } ∧
    ∀ n, getCartIter uid n (getCart uid s).2 = (getCart uid s).2 ∧
      (getCart uid (getCartIter uid n (getCart uid s).2)).1.cart_id =
        s.nextId := by
  have hg := getCart_none uid s h
  have hf1 : findCart (getCart uid s).2 uid =
      some { id := s.nextId, user_id := uid, items := [], updated_at := none } := by
    rw [hg]
    exact find?_append_none _ s.carts _ h (by simp)
  have hfix : getCart uid (getCart uid s).2 =
      ({ cart_id := s.nextId, items := [] }, (getCart uid s).2) :=
    getCart_some uid _ _ hf1
  refine ⟨by rw [hg], by rw [hg], ?_⟩
  intro n
  induction n with
  | zero => exact ⟨rfl, by rw [getCartIter, hfix]⟩
  | succ n ih =>
    have hstep : getCartIter uid (n + 1) (getCart uid s).2 =
        getCartIter uid n (getCart uid s).2 := by
      rw [getCartIter, congrArg Prod.snd hfix]
    exact ⟨hstep.trans ih.1, by rw [hstep, ih.1, hfix]⟩

/-- C6 witness: the empty store, user u1. -/
theorem claim6_getCart_idempotent_after_first_witness :
    (getCart "u1" emptyStore).2.carts = emptyStore.carts ++
        [{ id := emptyStore.nextId, user_id := "u1", items := [],
           updated_at := none }] ∧
    (getCart "u1" emptyStore).1 =
      { cart_id := emptyStore.nextId, items := [] } ∧
    ∀ n, getCartIter "u1" n (getCart "u1" emptyStore).2 =
        (getCart "u1" emptyStore).2 ∧
      (getCart "u1" (getCartIter "u1" n (getCart "u1" emptyStore).2)).1.cart_id =
        emptyStore.nextId :=
  claim6_getCart_idempotent_after_first "u1" emptyStore rfl

/-- C5: starting from no cart or an empty cart (in a store whose cart ids
are store-unique), a sequence of sequential addToCart calls with items
I1..IN leaves the user's cart holding exactly [I1,...,IN] in call order —
duplicate lines are kept separate and quantities are never summed. -/
theorem claim5_addToCart_appends_in_order (uid : String)
    (l : List (Nat × CartItem)) (s : Store) (hwf : s.WFCarts)
    (h : findCart s uid = none ∨ ∃ c, findCart s uid = some c ∧ c.items = []) :
    (getCart uid (addItems uid l s)).1.items = l.map (fun x => x.2) := by
  rcases h with h | ⟨c, hc, hnil⟩
  · cases l with
    | nil => simp [addItems, getCart, h]
    | cons x rest =>
      have hstep := addToCart_none x.1 uid x.2 s h
      have hs1 := congrArg Prod.snd hstep
      have hf1 : findCart ((addToCart x.1 uid x.2 s).2) uid =
          some { id := s.nextId, user_id := uid, items := [x.2],
                 updated_at := none } := by
        rw [hs1]
        exact find?_append_none _ s.carts _ h (by simp)
      have hwf1 : ((addToCart x.1 uid x.2 s).2).WFCarts := by
        rw [hs1]
        exact WFCarts_append_new s hwf _ rfl
      obtain ⟨c', h1, h2, _⟩ :=
        addItems_inv uid rest ((addToCart x.1 uid x.2 s).2) _ hwf1 hf1
      have hrun : addItems uid (x :: rest) s =
          addItems uid rest ((addToCart x.1 uid x.2 s).2) := by
        simp [addItems, List.foldl_cons]
      rw [hrun, getCart_some uid _ c' h1]
      simpa using h2
  · obtain ⟨c', h1, h2, _⟩ := addItems_inv uid l s c hwf hc
    rw [getCart_some uid _ c' h1]
    simpa [hnil] using h2

/-- C5 witness: adding the same line twice to a fresh cart yields two
separate identical lines, not one merged line. -/
theorem claim5_addToCart_appends_in_order_witness :
    (getCart "u9" (addItems "u9"
        [(1, { product_id := pid0, quantity := 1, size := none, color := none }),
         (2, { product_id := pid0, quantity := 1, size := none, color := none })]
        emptyStore)).1.items =
      [{ product_id := pid0, quantity := 1, size := none, color := none },
       { product_id := pid0, quantity := 1, size := none, color := none }] :=
  claim5_addToCart_appends_in_order "u9"
    [(1, { product_id := pid0, quantity := 1, size := none, color := none }),
     (2, { product_id := pid0, quantity := 1, size := none, color := none })]
    emptyStore ⟨by simp [emptyStore], by simp [emptyStore]⟩ (Or.inl rfl)

/-- C7: for every email, signup succeeds at most once: with no user yet
carrying the email, signup succeeds, stores one user with the hashed
credential and returns its id plus an issued token; and after any further
sequence of API calls, any signup with the same email fails with the 400
duplicate-email error and leaves the store untouched. -/
theorem claim7_signup_at_most_once (hash : String → String) (now : Nat)
    (name email password : String) (s : Store)
    (hfree : findUserByEmail s email = none) :
    ∃ r s1, signup hash now name email password s = (.ok r, s1) ∧
      (∃ u, u ∈ s1.users ∧ u.email = email ∧
        u.password_hash = hash password ∧
        r = { user_id := u.id, name := name, email := email,
              token := createToken u.id now }) ∧
      ∀ (verify : String → String → Bool) (ops : List (Nat × Op))
        (now2 : Nat) (name2 password2 : String),
        signup hash now2 name2 email password2 (runOps hash verify ops s1) =
          (.error duplicateEmailErr, runOps hash verify ops s1) := by
  have hsig : signup hash now name email password s =
      (.ok { user_id := s.nextId, name := name, email := email,
             token := createToken s.nextId now },
       (insertUserDoc s name email (hash password)).2) := by
    simp [signup, hfree, insertUserDoc]
  refine ⟨_, _, hsig, ?_, ?_⟩
  · refine ⟨{ id := s.nextId, name := name, email := email,
              password_hash := hash password, address := none,
              is_active := true }, ?_, rfl, rfl, rfl⟩
    exact List.mem_append_right _ (List.mem_singleton.mpr rfl)
  · intro verify ops now2 name2 password2
    have hu : ({ id := s.nextId, name := name, email := email,
                 password_hash := hash password, address := none,
                 is_active := true } : UserDoc) ∈
        (runOps hash verify ops (insertUserDoc s name email (hash password)).2).users := by
      refine runOps_users_mem hash verify ops _ _ ?_
      exact List.mem_append_right _ (List.mem_singleton.mpr rfl)
    have hsome : ((runOps hash verify ops
        (insertUserDoc s name email (hash password)).2).users.find?
          (fun u => u.email == email)).isSome := by
      rw [List.find?_isSome]
      exact ⟨_, hu, by simp⟩
    obtain ⟨w, hw⟩ := Option.isSome_iff_exists.mp hsome
    have hw' : findUserByEmail
        (runOps hash verify ops (insertUserDoc s name email (hash password)).2)
        email = some w := hw
    simp [signup, hw']

/-- C7 witness: Alice signs up on the empty store; after an interleaved
cart lookup, a second signup with her email fails with the 400 error. -/
theorem claim7_signup_at_most_once_witness :
    ∃ r s1, signup hashF 3 "Alice" "alice@x.com" "pw123" emptyStore =
        (.ok r, s1) ∧
      (∃ u, u ∈ s1.users ∧ u.email = "alice@x.com" ∧
        u.password_hash = hashF "pw123" ∧
        r = { user_id := u.id, name := "Alice", email := "alice@x.com",
              token := createToken u.id 3 }) ∧
      ∀ (verify : String → String → Bool) (ops : List (Nat × Op))
        (now2 : Nat) (name2 password2 : String),
        signup hashF now2 name2 "alice@x.com" password2
            (runOps hashF verify ops s1) =
          (.error duplicateEmailErr, runOps hashF verify ops s1) :=
  claim7_signup_at_most_once hashF 3 "Alice" "alice@x.com" "pw123"
    emptyStore rfl

/-- C2: for every successful checkout, the persisted order's total equals
the sum of unit_price × quantity over its order items, rounded to two
decimal places with Python's round (ties to even), and the response
reports that same total; in particular the one-line cart holding two units
of the 10-dollar product checks out with total 20.00. -/
theorem claim2_checkout_total_rounded_sum (now : Nat) (uid : String)
    (addr : Option String) (s : Store) (r : CheckoutResp) (s' : Store)
    (h : checkout now uid addr s = (.ok r, s')) :
    (∃ od, s'.orders = s.orders ++ [od] ∧
      od.total = pyRound2 ((od.items.map
        (fun oi => oi.unit_price * (oi.quantity : ℚ))).sum) ∧
      r.total = od.total) ∧
    (checkout 5 "u1" none cartStoreA).1 =
      .ok { order_id := 2, total := 20, status := "paid" } := by
  constructor
  · obtain ⟨c, hc, hne⟩ := checkout_ok_inv now uid addr s r s' h
    rw [checkout_eq now uid addr s c hc hne] at h
    injection h with hfst hsnd
    injection hfst with hr
    subst hr
    subst hsnd
    refine ⟨checkoutOrder now uid addr s c, rfl, ?_, rfl⟩
    show pyRound2 ((c.items.map (lineTotal s)).sum) =
      pyRound2 (((c.items.map (snapItem s)).map
        (fun oi => oi.unit_price * (oi.quantity : ℚ))).sum)
    rw [List.map_map]
    rfl
  · have h20 : respA = { order_id := 2, total := 20, status := "paid" } := by
      rw [← respA_total]
      rfl
    rw [checkoutA_eq, h20]

/-- C2 witness: the closed concrete conjunct of the theorem, extracted by
applying it to the fixture checkout run. -/
theorem claim2_checkout_total_rounded_sum_witness :
    (checkout 5 "u1" none cartStoreA).1 =
      .ok { order_id := 2, total := 20, status := "paid" } :=
  (claim2_checkout_total_rounded_sum 5 "u1" none cartStoreA respA afterA
    checkoutA_eq).2

/-- C3: a cart item whose product id is malformed or matches no product
does not make checkout fail: checkout still succeeds and that item's order
snapshot gets title "Item" and unit price 0. -/
theorem claim3_unresolved_item_defaults (now : Nat) (uid : String)
    (addr : Option String) (s : Store) (c : CartDoc)
    (hc : findCart s uid = some c) (hne : c.items ≠ []) :
    ∃ r s', checkout now uid addr s = (.ok r, s') ∧
      ∃ od, s'.orders = s.orders ++ [od] ∧
        od.items.length = c.items.length ∧
        ∀ i (h1 : i < c.items.length) (h2 : i < od.items.length),
          findProduct s (c.items[i].product_id) = none →
            od.items[i].title = "Item" ∧ od.items[i].unit_price = 0 := by
  rw [checkout_eq now uid addr s c hc hne]
  refine ⟨_, _, rfl, checkoutOrder now uid addr s c, rfl,
    by simp [checkoutOrder], ?_⟩
  intro i h1 h2 hnone
  have hgi : (checkoutOrder now uid addr s c).items[i] =
      snapItem s (c.items[i]) := by
    simp [checkoutOrder]
  rw [hgi]
  simp [snapItem, hnone]

/-- C3 witness: the cart whose only line references "not-a-valid-id"
checks out with the default snapshot. -/
theorem claim3_unresolved_item_defaults_witness :
    ∃ r s', checkout 7 "u2" none cartStoreB = (.ok r, s') ∧
      ∃ od, s'.orders = cartStoreB.orders ++ [od] ∧
        od.items.length = cartB.items.length ∧
        ∀ i (h1 : i < cartB.items.length) (h2 : i < od.items.length),
          findProduct cartStoreB (cartB.items[i].product_id) = none →
            od.items[i].title = "Item" ∧ od.items[i].unit_price = 0 :=
  claim3_unresolved_item_defaults 7 "u2" none cartStoreB cartB rfl
    (by simp [cartB])

/-- C4: every successful checkout leaves the originating cart with an
empty item sequence and a bumped updated timestamp, so a following getCart
for that user returns items = [] without touching the store. -/
theorem claim4_checkout_clears_cart (now : Nat) (uid : String)
    (addr : Option String) (s : Store) (r : CheckoutResp) (s' : Store)
    (h : checkout now uid addr s = (.ok r, s')) :
    ∃ c', findCart s' uid = some c' ∧ c'.items = [] ∧
      c'.updated_at = some now ∧
      getCart uid s' = ({ cart_id := c'.id, items := [] }, s') := by
  obtain ⟨c, hc, hne⟩ := checkout_ok_inv now uid addr s r s' h
  rw [checkout_eq now uid addr s c hc hne] at h
  injection h with hfst hsnd
  subst hsnd
  have hfind : findCart
      ({ users := s.users, products := s.products,
         carts := clearCart now uid s.carts,
         orders := s.orders ++ [checkoutOrder now uid addr s c],
         nextId := s.nextId + 1 } : Store) uid =
      some { c with items := [], updated_at := some now } := by
    show (clearCart now uid s.carts).find? (fun d => d.user_id == uid) =
      some { c with items := [], updated_at := some now }
    have hc' : s.carts.find? (fun d => d.user_id == uid) = some c := hc
    exact find?_updateFirst (fun d => d.user_id == uid)
      (fun d => { d with items := [], updated_at := some now })
      (fun a ha => ha) s.carts c hc'
  exact ⟨{ c with items := [], updated_at := some now }, hfind, rfl, rfl,
    getCart_some uid _ _ hfind⟩

/-- C4 witness: the fixture checkout run, whose cart is cleared. -/
theorem claim4_checkout_clears_cart_witness :
    ∃ c', findCart afterA "u1" = some c' ∧ c'.items = [] ∧
      c'.updated_at = some 5 ∧
      getCart "u1" afterA = ({ cart_id := c'.id, items := [] }, afterA) :=
  claim4_checkout_clears_cart 5 "u1" none cartStoreA respA afterA
    checkoutA_eq

/-- C9: every order created by checkout has status "paid"; its items are a
positional snapshot of the cart — one order item per cart item carrying the
cart line's product_id, quantity, size and color together with the resolved
product's title and unit price at checkout time (defaults when unresolved) —
and checkout returns the order id, the total and the status. -/
theorem claim9_order_snapshot (now : Nat) (uid : String)
    (addr : Option String) (s : Store) (r : CheckoutResp) (s' : Store)
    (h : checkout now uid addr s = (.ok r, s')) :
    ∃ c od, findCart s uid = some c ∧ s'.orders = s.orders ++ [od] ∧
      od.status = "paid" ∧ od.user_id = uid ∧ od.shipping_address = addr ∧
      od.created_at = now ∧ od.updated_at = now ∧
      r = { order_id := od.id, total := od.total, status := "paid" } ∧
      od.items.length = c.items.length ∧
      ∀ i (h1 : i < c.items.length) (h2 : i < od.items.length),
        (od.items[i].product_id = c.items[i].product_id ∧
         od.items[i].quantity = c.items[i].quantity ∧
         od.items[i].size = c.items[i].size ∧
         od.items[i].color = c.items[i].color) ∧
        (∀ p, findProduct s (c.items[i].product_id) = some p →
           od.items[i].title = p.title ∧ od.items[i].unit_price = p.price) ∧
        (findProduct s (c.items[i].product_id) = none →
           od.items[i].title = "Item" ∧ od.items[i].unit_price = 0) := by
  obtain ⟨c, hc, hne⟩ := checkout_ok_inv now uid addr s r s' h
  rw [checkout_eq now uid addr s c hc hne] at h
  injection h with hfst hsnd
  injection hfst with hr
  subst hr
  subst hsnd
  refine ⟨c, checkoutOrder now uid addr s c, hc, rfl, rfl, rfl, rfl, rfl,
    rfl, rfl, by simp [checkoutOrder], ?_⟩
  intro i h1 h2
  have hgi : (checkoutOrder now uid addr s c).items[i] =
      snapItem s (c.items[i]) := by
    simp [checkoutOrder]
  rw [hgi]
  refine ⟨⟨rfl, rfl, rfl, rfl⟩, ?_, ?_⟩
  · intro p hp
    simp [snapItem, hp]
  · intro hp
    simp [snapItem, hp]

/-- C9 witness: the fixture checkout run, instantiating the snapshot
properties for the two-tee cart. -/
theorem claim9_order_snapshot_witness :
    ∃ c od, findCart cartStoreA "u1" = some c ∧
      afterA.orders = cartStoreA.orders ++ [od] ∧
      od.status = "paid" ∧ od.user_id = "u1" ∧ od.shipping_address = none ∧
      od.created_at = 5 ∧ od.updated_at = 5 ∧
      respA = { order_id := od.id, total := od.total, status := "paid" } ∧
      od.items.length = c.items.length ∧
      ∀ i (h1 : i < c.items.length) (h2 : i < od.items.length),
        (od.items[i].product_id = c.items[i].product_id ∧
         od.items[i].quantity = c.items[i].quantity ∧
         od.items[i].size = c.items[i].size ∧
         od.items[i].color = c.items[i].color) ∧
        (∀ p, findProduct cartStoreA (c.items[i].product_id) = some p →
           od.items[i].title = p.title ∧ od.items[i].unit_price = p.price) ∧
        (findProduct cartStoreA (c.items[i].product_id) = none →
           od.items[i].title = "Item" ∧ od.items[i].unit_price = 0) :=
  claim9_order_snapshot 5 "u1" none cartStoreA respA afterA checkoutA_eq

/-- C10: checkout reads but never writes the user and product collections;
a failing checkout returns the store exactly unchanged, and a successful
one appends exactly one order document for the user while the cart
collection keeps its length, every cart document keeps its id and owner,
and the cart documents of all other users are left untouched. -/
theorem claim10_checkout_frame (now : Nat) (uid : String)
    (addr : Option String) (s : Store) :
    (checkout now uid addr s).2.users = s.users ∧
    (checkout now uid addr s).2.products = s.products ∧
    (∀ e, (checkout now uid addr s).1 = .error e →
      (checkout now uid addr s).2 = s) ∧
    ∀ r, (checkout now uid addr s).1 = .ok r →
      (∃ od, (checkout now uid addr s).2.orders = s.orders ++ [od] ∧
        od.user_id = uid) ∧
      (checkout now uid addr s).2.carts.length = s.carts.length ∧
      ∀ i (h1 : i < s.carts.length)
        (h2 : i < (checkout now uid addr s).2.carts.length),
        (checkout now uid addr s).2.carts[i].id = s.carts[i].id ∧
        (checkout now uid addr s).2.carts[i].user_id = s.carts[i].user_id ∧
        (s.carts[i].user_id ≠ uid →
          (checkout now uid addr s).2.carts[i] = s.carts[i]) := by
  rcases hf : findCart s uid with _ | c
  · simp [checkout, hf]
  · by_cases hemp : c.items.isEmpty
    · simp [checkout, hf, hemp]
    · have hne : c.items ≠ [] := List.isEmpty_eq_false.mp (by simpa using hemp)
      rw [checkout_eq now uid addr s c hf hne]
      refine ⟨rfl, rfl, ?_, ?_⟩
      · intro e he
        simp at he
      · intro r hr
        refine ⟨⟨checkoutOrder now uid addr s c, rfl, rfl⟩, ?_, ?_⟩
        · show (clearCart now uid s.carts).length = s.carts.length
          simp [clearCart, updateFirst_length]
        · intro i h1 h2
          simp only [clearCart] at h2 ⊢
          have hup := updateFirst_getElem (fun d => d.user_id == uid)
            (fun d => { d with items := [], updated_at := some now })
            s.carts i h1 h2
          rcases hup with heq | ⟨heq, hpi⟩
          · rw [heq]
            exact ⟨rfl, rfl, fun _ => rfl⟩
          · rw [heq]
            exact ⟨rfl, rfl, fun hneq => absurd (by simpa using hpi) hneq⟩

/-- C10 witness: the fixture checkout run, instantiating the success-side
frame conditions. -/
theorem claim10_checkout_frame_witness :
    (∃ od, (checkout 5 "u1" none cartStoreA).2.orders =
        cartStoreA.orders ++ [od] ∧ od.user_id = "u1") ∧
    (checkout 5 "u1" none cartStoreA).2.carts.length =
      cartStoreA.carts.length ∧
    ∀ i (h1 : i < cartStoreA.carts.length)
      (h2 : i < (checkout 5 "u1" none cartStoreA).2.carts.length),
      (checkout 5 "u1" none cartStoreA).2.carts[i].id =
        cartStoreA.carts[i].id ∧
      (checkout 5 "u1" none cartStoreA).2.carts[i].user_id =
        cartStoreA.carts[i].user_id ∧
      (cartStoreA.carts[i].user_id ≠ "u1" →
        (checkout 5 "u1" none cartStoreA).2.carts[i] = cartStoreA.carts[i]) :=
  (claim10_checkout_frame 5 "u1" none cartStoreA).2.2.2 respA
    (congrArg Prod.fst checkoutA_eq)

end ECom
